import Mathlib

/-!
# Verification of the disaster-relief allocation/matching engine

Shallow embedding of `src/utils/disaster_utils.py` (functions `match_items`,
`calculate_match_score`, `find_nearby_hubs`, `find_best_hub_for_request`,
`classify_disaster_type`, `assess_severity`) together with proofs of the
specified properties.

Modelling conventions:
* Python floats are modelled as exact rationals (`ℚ`); Python ints as `ℤ`.
* Python `round(x, n)` rounds half to even; `pyRound` implements this exactly.
* Python dicts (inventory maps) are association lists with unique keys in
  insertion order; `getVal?` is `d[k]` lookup (`none` when `k not in d`).
* `geopy.geodesic` (`calculate_distance`) is an external library call; the
  engine is parameterised by an arbitrary distance function `dist`, since
  every property quantifies over the computed distances.
* Python `a / b` raises `ZeroDivisionError` when `b = 0`; fallible
  computations therefore return `Option`, `none` modelling the raise.
* Python `list.sort` is a stable sort; `List.insertionSort` with a total
  preorder is a stable sort, hence produces the identical list.
-/

namespace DisasterRelief

/-- Coordinates `(latitude, longitude)` as exact rationals. -/
abbrev Coord := ℚ × ℚ

/-- Round a rational to the nearest integer, halves to even
(the semantics of Python `round` on exact values). -/
def rndHalfEven (x : ℚ) : ℤ :=
  if x - ⌊x⌋ < 1/2 then ⌊x⌋
  else if 1/2 < x - ⌊x⌋ then ⌊x⌋ + 1
  else if ⌊x⌋ % 2 = 0 then ⌊x⌋ else ⌊x⌋ + 1

/-- Python `round(x, n)` on exact values: round `x` to `n` decimal digits,
halves to even. -/
def pyRound (n : ℕ) (x : ℚ) : ℚ :=
  (rndHalfEven (x * 10 ^ n) : ℚ) / 10 ^ n

/-- Dict lookup `d[k]` on an association list: value of the first binding of
`k`, `none` when `k not in d`. -/
def getVal? (d : List (String × ℤ)) (k : String) : Option ℤ :=
  match d with
  | [] => none
  | (k₀, v) :: rest => if k₀ = k then some v else getVal? rest k

/-- Python `sum(d.values())`. -/
def sumVals (d : List (String × ℤ)) : ℤ :=
  (d.map Prod.snd).sum

/-- A relief hub record: `latitude`, `longitude`, the `inventory` dict
(item name → quantity) and the remaining descriptive fields (`id`, `name`,
`contact`, ...) carried through as opaque payload. -/
structure Hub where
  latitude : ℚ
  longitude : ℚ
  inventory : List (String × ℤ)
  extra : List (String × String)
deriving DecidableEq, Repr

/-- Output row of `find_nearby_hubs`: a copy of the hub
(`hub_with_distance = hub.copy()`) with the derived `distance_km` attached. -/
structure NearbyHub where
  hub : Hub
  distance_km : ℚ
deriving DecidableEq, Repr

/-- Output row of `find_best_hub_for_request`: a copy of the hub
(`{**hub, ...}`) with the three derived fields attached. -/
structure ScoredHub where
  hub : Hub
  distance_km : ℚ
  match_score : ℚ
  combined_score : ℚ
deriving DecidableEq, Repr

/-- `match_items(requested, available)`: for each requested item present in
`available` with available quantity > 0, the matched quantity
`min(quantity, available[item])`. -/
def match_items (requested available : List (String × ℤ)) : List (String × ℤ) :=
  requested.filterMap (fun x =>
    match getVal? available x.1 with
    | some a => if 0 < a then some (x.1, min x.2 a) else none
    | none => none)

/-- `calculate_match_score(requested, available)`: `0.0` when `requested` is
empty, otherwise `(total_matched / total_requested) * 100`.  The division is
Python `/`, which raises `ZeroDivisionError` when `total_requested` is zero;
the raise is modelled as `none`. -/
def calculate_match_score (requested available : List (String × ℤ)) : Option ℚ :=
  if requested.isEmpty then some 0
  else
    let total_requested := sumVals requested
    let total_matched := sumVals (match_items requested available)
    if total_requested = 0 then none
    else some ((total_matched : ℚ) / (total_requested : ℚ) * 100)

/-- The loop body of `find_nearby_hubs`: the copied hub with rounded
`distance_km` when `distance <= max_distance_km`, nothing otherwise. -/
def nearbyEntry (dist : Coord → Coord → ℚ) (location : Coord)
    (max_distance_km : ℚ) (hub : Hub) : Option NearbyHub :=
  let distance := dist location (hub.latitude, hub.longitude)
  if distance ≤ max_distance_km then
    some { hub := hub, distance_km := pyRound 2 distance }
  else none

/-- Sort key order of `nearby.sort(key=lambda x: x['distance_km'])`. -/
def nearbyLE (a b : NearbyHub) : Prop :=
  a.distance_km ≤ b.distance_km

instance : DecidableRel nearbyLE := fun a b =>
  inferInstanceAs (Decidable (a.distance_km ≤ b.distance_km))

instance : IsTotal NearbyHub nearbyLE := ⟨fun _ _ => le_total _ _⟩

instance : IsTrans NearbyHub nearbyLE := ⟨fun _ _ _ => le_trans⟩

/-- `find_nearby_hubs(location, hubs, max_distance_km)`: keep the hubs within
`max_distance_km`, each copied with its rounded `distance_km`, then stably
sort ascending by `distance_km`. -/
def find_nearby_hubs (dist : Coord → Coord → ℚ) (location : Coord)
    (hubs : List Hub) (max_distance_km : ℚ) : List NearbyHub :=
  let nearby := hubs.filterMap (nearbyEntry dist location max_distance_km)
  nearby.insertionSort nearbyLE

/-- Sort key order of `scored_hubs.sort(key=lambda x: x['combined_score'],
reverse=True)`: stable descending by `combined_score`. -/
def scoredGE (a b : ScoredHub) : Prop :=
  b.combined_score ≤ a.combined_score

instance : DecidableRel scoredGE := fun a b =>
  inferInstanceAs (Decidable (b.combined_score ≤ a.combined_score))

/-- The filtering/scoring loop of `find_best_hub_for_request`: skip hubs with
`distance > 100`, compute the match score (propagating a raise as `none`),
skip hubs with `match_score == 0`, and record the copied hub with the three
rounded derived fields.  The weights are the source's `0.7` and `0.3`. -/
def scoreHubs (dist : Coord → Coord → ℚ) (victim_location : Coord)
    (requested_items : List (String × ℤ)) : List Hub → Option (List ScoredHub)
  | [] => some []
  | hub :: rest =>
    let distance := dist victim_location (hub.latitude, hub.longitude)
    if 100 < distance then
      scoreHubs dist victim_location requested_items rest
    else
      match calculate_match_score requested_items hub.inventory with
      | none => none
      | some match_score =>
        if match_score = 0 then
          scoreHubs dist victim_location requested_items rest
        else
          let distance_score := 100 / (1 + distance)
          let combined_score := match_score * (7/10) + distance_score * (3/10)
          (scoreHubs dist victim_location requested_items rest).map
            (fun tail =>
              { hub := hub
                distance_km := pyRound 2 distance
                match_score := pyRound 1 match_score
                combined_score := pyRound 1 combined_score } :: tail)

/-- `find_best_hub_for_request(victim_location, requested_items, hubs)`:
score the hubs, stably sort descending by (rounded) `combined_score`, and
return the first element (`None` when no hub survives).  The outer `Option`
models an escaping `ZeroDivisionError`. -/
def find_best_hub_for_request (dist : Coord → Coord → ℚ) (victim_location : Coord)
    (requested_items : List (String × ℤ)) (hubs : List Hub) :
    Option (Option ScoredHub) :=
  (scoreHubs dist victim_location requested_items hubs).map
    (fun scored_hubs => (scored_hubs.insertionSort scoredGE).head?)

/-- The unrounded intermediate `combined_score` the code computes for a hub:
`match_score * 0.7 + (100 / (1 + distance)) * 0.3`, `none` when the
match-score computation raises. -/
def combinedScoreOf (dist : Coord → Coord → ℚ) (victim_location : Coord)
    (requested_items : List (String × ℤ)) (hub : Hub) : Option ℚ :=
  (calculate_match_score requested_items hub.inventory).map
    (fun m =>
      m * (7/10) + (100 / (1 + dist victim_location (hub.latitude, hub.longitude))) * (3/10))

/-- Python `s.lower()` on the character list (ASCII, as all keywords are). -/
def strLower (s : String) : String :=
  String.mk (s.data.map Char.toLower)

/-- Python `word in text` (substring containment) as a proposition on the
character lists. -/
def strIn (word text : String) : Prop :=
  word.data <:+: text.data

instance : ∀ w t, Decidable (strIn w t) := fun w t =>
  inferInstanceAs (Decidable (w.data <:+: t.data))

/-- `any(word in tweet_lower for word in words)`. -/
def kwMatch (low : String) (words : List String) : Bool :=
  words.any (fun w => decide (strIn w low))

/-- The fixed, ordered keyword table of `classify_disaster_type`. -/
def disaster_keywords : List (String × List String) :=
  [("earthquake", ["earthquake", "tremor", "seismic", "quake"]),
   ("flood", ["flood", "flooding", "inundation", "deluge"]),
   ("hurricane", ["hurricane", "cyclone", "typhoon", "storm"]),
   ("wildfire", ["wildfire", "fire", "blaze", "burning"]),
   ("tornado", ["tornado", "twister"]),
   ("tsunami", ["tsunami", "tidal wave"]),
   ("landslide", ["landslide", "mudslide"]),
   ("volcano", ["volcano", "volcanic", "eruption"]),
   ("drought", ["drought", "dry", "water shortage"]),
   ("blizzard", ["blizzard", "snowstorm", "winter storm"])]

/-- `classify_disaster_type(tweet_text)`: first label of the ordered table
one of whose keywords occurs in the lower-cased text, else `"unknown"`. -/
def classify_disaster_type (tweet_text : String) : String :=
  let tweet_lower := strLower tweet_text
  match disaster_keywords.find? (fun p => kwMatch tweet_lower p.2) with
  | some p => p.1
  | none => "unknown"

/-- The `critical_keywords` list of `assess_severity`. -/
def critical_keywords : List String :=
  ["death", "dead", "killed", "catastrophic", "devastating",
   "destroyed", "massive", "severe", "emergency"]

/-- The `high_keywords` list of `assess_severity`. -/
def high_keywords : List String :=
  ["major", "serious", "significant", "heavy", "damage"]

/-- The `medium_keywords` list of `assess_severity`. -/
def medium_keywords : List String :=
  ["moderate", "warning", "alert"]

/-- `assess_severity(tweet_text)`: highest tier (critical > high > medium)
one of whose keywords occurs in the lower-cased text, else `"low"`. -/
def assess_severity (tweet_text : String) : String :=
  let tweet_lower := strLower tweet_text
  if kwMatch tweet_lower critical_keywords then "critical"
  else if kwMatch tweet_lower high_keywords then "high"
  else if kwMatch tweet_lower medium_keywords then "medium"
  else "low"

/-! ## Concrete inputs used in the closed example theorems -/

/-- A degenerate distance function: everything is at distance 0. -/
def distZero : Coord → Coord → ℚ := fun _ _ => 0

/-- A distance function reading the distance off the hub's latitude field. -/
def distLat : Coord → Coord → ℚ := fun _ p => p.1

/-- Hub covering 714 of 1000 requested water units. -/
def hubA : Hub := ⟨0, 0, [("water", 714)], []⟩

/-- Hub covering 715 of 1000 requested water units. -/
def hubB : Hub := ⟨0, 0, [("water", 715)], []⟩

/-- Request for 1000 water units. -/
def reqK : List (String × ℤ) := [("water", 1000)]

/-- Hub holding a single unit of water. -/
def hubP : Hub := ⟨0, 0, [("water", 1)], []⟩

/-- Hub whose distance (via `distLat`) is 49.998 km. -/
def hubN : Hub := ⟨24999/500, 0, [], []⟩

/-- Hub at distance 7 via `distLat`. -/
def hubM : Hub := ⟨7, 0, [], []⟩

/-- Hub fully covering a 2-unit water request. -/
def hubU : Hub := ⟨0, 0, [("water", 2)], []⟩

/-- Hub holding 3 food units. -/
def hubV : Hub := ⟨0, 0, [("food", 3)], []⟩

/-- Hub holding 5 tents. -/
def hubT : Hub := ⟨1, 1, [("tents", 5)], []⟩

/-! ## Rounding lemmas -/

/-- Evaluation rule for `rndHalfEven` given the enclosing integer interval. -/
lemma rndHalfEven_eval (x : ℚ) (f : ℤ) (h0 : (f : ℚ) ≤ x) (h1 : x < f + 1) :
    rndHalfEven x =
      if x - f < 1/2 then f
      else if 1/2 < x - f then f + 1
      else if f % 2 = 0 then f else f + 1 := by
  have hf : ⌊x⌋ = f := by
    rw [Int.floor_eq_iff]
    exact ⟨h0, by exact_mod_cast h1⟩
  rw [rndHalfEven, hf]

/-- `rndHalfEven` never exceeds its argument by more than a half. -/
lemma rndHalfEven_le (x : ℚ) : (rndHalfEven x : ℚ) ≤ x + 1/2 := by
  have hfl : (⌊x⌋ : ℚ) ≤ x := Int.floor_le x
  rw [rndHalfEven]
  split_ifs with hlt hgt heven
  · linarith
  · push_cast
    linarith
  · linarith
  · have hmid : x - ⌊x⌋ = 1/2 := le_antisymm (not_lt.mp hgt) (not_lt.mp hlt)
    push_cast
    linarith

/-- Rounding to `n` decimals never exceeds an integer bound the argument
satisfies. -/
lemma pyRound_le_int (n : ℕ) (x : ℚ) (m : ℤ) (h : x ≤ m) : pyRound n x ≤ m := by
  have hpow : (0:ℚ) < 10 ^ n := by positivity
  have h1 : (rndHalfEven (x * 10 ^ n) : ℚ) ≤ x * 10 ^ n + 1/2 := rndHalfEven_le _
  have h2 : x * 10 ^ n ≤ (m : ℚ) * 10 ^ n := by
    exact mul_le_mul_of_nonneg_right h (le_of_lt hpow)
  have h3 : (rndHalfEven (x * 10 ^ n) : ℚ) < (m : ℚ) * 10 ^ n + 1 := by linarith
  have h4 : rndHalfEven (x * 10 ^ n) ≤ m * 10 ^ n := by
    have : (rndHalfEven (x * 10 ^ n) : ℚ) < ((m * 10 ^ n + 1 : ℤ) : ℚ) := by
      push_cast
      linarith
    exact_mod_cast Int.lt_add_one_iff.mp (by exact_mod_cast this)
  rw [pyRound, div_le_iff₀ hpow]
  calc (rndHalfEven (x * 10 ^ n) : ℚ) ≤ ((m * 10 ^ n : ℤ) : ℚ) := by exact_mod_cast h4
    _ = (m : ℚ) * 10 ^ n := by push_cast; ring

/-- Rounding to `n` decimals exceeds the argument by at most half an ulp. -/
lemma pyRound_le_add (n : ℕ) (x : ℚ) : pyRound n x ≤ x + 1 / (2 * 10 ^ n) := by
  have hpow : (0:ℚ) < 10 ^ n := by positivity
  have h1 : (rndHalfEven (x * 10 ^ n) : ℚ) ≤ x * 10 ^ n + 1/2 := rndHalfEven_le _
  rw [pyRound, div_le_iff₀ hpow]
  have : (x + 1 / (2 * 10 ^ n)) * 10 ^ n = x * 10 ^ n + 1/2 := by
    field_simp
    ring
  rw [this]
  exact h1

/-! ## InventoryMatcher lemmas -/

/-- Pointwise characterisation of `match_items` through dict lookup. -/
lemma getVal?_match_items (requested available : List (String × ℤ)) (item : String) :
    getVal? (match_items requested available) item =
      match getVal? requested item, getVal? available item with
      | some rq, some aq => if 0 < aq then some (min rq aq) else none
      | _, _ => none := by
  induction requested with
  | nil => simp [match_items, getVal?]
  | cons hd rest ih =>
    obtain ⟨k, v⟩ := hd
    by_cases hk : k = item
    · subst hk
      cases hA : getVal? available k with
      | none =>
        simp only [match_items, List.filterMap_cons, hA] at ih ⊢
        rw [ih]
        cases hR : getVal? rest k <;> simp [getVal?, hA]
      | some aq =>
        by_cases haq : 0 < aq
        · simp only [match_items, List.filterMap_cons, hA, if_pos haq]
          simp [getVal?, hA, haq]
        · simp only [match_items, List.filterMap_cons, hA, if_neg haq]
          simp only [match_items] at ih
          rw [ih]
          cases hR : getVal? rest k <;> simp [getVal?, hA, haq]
    · have hgr : getVal? ((k, v) :: rest) item = getVal? rest item := by
        simp [getVal?, hk]
      rw [hgr]
      cases hA : getVal? available k with
      | none =>
        simp only [match_items, List.filterMap_cons, hA]
        exact ih
      | some aq =>
        by_cases haq : 0 < aq
        · simp only [match_items, List.filterMap_cons, hA, if_pos haq]
          simp only [match_items] at ih
          rw [← ih]
          simp [getVal?, hk]
        · simp only [match_items, List.filterMap_cons, hA, if_neg haq]
          exact ih

/-- Every row of `match_items` arises from a requested item that is available
with positive quantity, matched at `min`. -/
lemma mem_match_items (requested available : List (String × ℤ)) (p : String × ℤ)
    (hp : p ∈ match_items requested available) :
    ∃ rq aq, (p.1, rq) ∈ requested ∧ getVal? available p.1 = some aq ∧ 0 < aq ∧
      p.2 = min rq aq := by
  rw [match_items, List.mem_filterMap] at hp
  obtain ⟨x, hx, hfx⟩ := hp
  cases hA : getVal? available x.1 with
  | none => simp [hA] at hfx
  | some aq =>
    simp only [hA] at hfx
    by_cases haq : 0 < aq
    · rw [if_pos haq] at hfx
      obtain rfl : (x.1, min x.2 aq) = p := Option.some_inj.mp hfx
      exact ⟨x.2, aq, by simpa using hx, hA, haq, rfl⟩
    · rw [if_neg haq] at hfx
      cases hfx

/-- Sum of an association list with non-negative values is non-negative. -/
lemma sumVals_nonneg (d : List (String × ℤ)) (h : ∀ p ∈ d, 0 ≤ p.2) :
    0 ≤ sumVals d := by
  rw [sumVals]
  apply List.sum_nonneg
  intro x hx
  rw [List.mem_map] at hx
  obtain ⟨p, hp, rfl⟩ := hx
  exact h p hp

/-- Sum over a cons cell. -/
lemma sumVals_cons (p : String × ℤ) (d : List (String × ℤ)) :
    sumVals (p :: d) = p.2 + sumVals d := by
  simp [sumVals]

/-- The matched total never exceeds the requested total, and is non-negative,
for non-negative requested quantities. -/
lemma sumVals_match_items_le (requested available : List (String × ℤ))
    (h : ∀ p ∈ requested, 0 ≤ p.2) :
    sumVals (match_items requested available) ≤ sumVals requested ∧
      0 ≤ sumVals (match_items requested available) := by
  induction requested with
  | nil => simp [match_items, sumVals]
  | cons hd rest ih =>
    have hhd : 0 ≤ hd.2 := h hd (by simp)
    have hrest := ih (fun p hp => h p (by simp [hp]))
    rw [sumVals_cons]
    cases hA : getVal? available hd.1 with
    | none =>
      simp only [match_items, List.filterMap_cons, hA]
      simp only [match_items] at hrest
      exact ⟨by linarith [hrest.1], hrest.2⟩
    | some aq =>
      by_cases haq : 0 < aq
      · simp only [match_items, List.filterMap_cons, hA, if_pos haq]
        simp only [match_items] at hrest
        rw [sumVals_cons]
        constructor
        · have hle : min hd.2 aq ≤ hd.2 := min_le_left _ _
          have := hrest.1
          linarith
        · have hge : 0 ≤ min hd.2 aq := le_min hhd (le_of_lt haq)
          have := hrest.2
          linarith
      · simp only [match_items, List.filterMap_cons, hA, if_neg haq]
        simp only [match_items] at hrest
        exact ⟨by linarith [hrest.1], hrest.2⟩

/-- `match_items` against an empty inventory is empty. -/
lemma match_items_nil_available (requested : List (String × ℤ)) :
    match_items requested [] = [] := by
  rw [match_items, List.filterMap_eq_nil_iff]
  intro x _
  simp [getVal?]

/-- Unfolded value of `calculate_match_score` when the requested total is
nonzero. -/
lemma calculate_match_score_of_total_ne (requested available : List (String × ℤ))
    (h : sumVals requested ≠ 0) :
    calculate_match_score requested available =
      some ((sumVals (match_items requested available) : ℚ)
        / (sumVals requested : ℚ) * 100) := by
  have hne : ¬ requested.isEmpty := by
    cases requested with
    | nil => simp [sumVals] at h
    | cons a l => simp
  rw [calculate_match_score, if_neg hne]
  simp only [if_neg h]

/-! ## Stable-sort lemmas -/

/-- An insertion sort is empty exactly when its input is. -/
lemma insertionSort_eq_nil_iff {α : Type} (r : α → α → Prop) [DecidableRel r]
    (l : List α) : l.insertionSort r = [] ↔ l = [] := by
  constructor
  · intro h
    have hp := List.perm_insertionSort r l
    rw [h] at hp
    exact (hp.symm.eq_nil)
  · intro h
    subst h
    rfl

/-- The head of the stable descending sort by `combined_score` is the first
element attaining the maximum `combined_score`. -/
lemma head_insertionSort_scoredGE (l : List ScoredHub) :
    ∀ sh : ScoredHub, (l.insertionSort scoredGE).head? = some sh →
    ∃ pre post, l = pre ++ sh :: post ∧
      (∀ x ∈ pre, x.combined_score < sh.combined_score) ∧
      ∀ x ∈ l, x.combined_score ≤ sh.combined_score := by
  induction l with
  | nil => intro sh h; simp [List.insertionSort] at h
  | cons a l ih =>
    intro sh h
    rw [List.insertionSort] at h
    cases hl : l.insertionSort scoredGE with
    | nil =>
      have hlnil : l = [] := (insertionSort_eq_nil_iff scoredGE l).mp hl
      subst hlnil
      rw [hl] at h
      simp only [List.orderedInsert, List.head?] at h
      obtain rfl : a = sh := Option.some_inj.mp h
      exact ⟨[], [], rfl, by simp, by simp⟩
    | cons m rest =>
      rw [hl] at h
      obtain ⟨pre, post, hdec, hpre, hall⟩ := ih m (by rw [hl]; rfl)
      by_cases hr : scoredGE a m
      · rw [List.orderedInsert, if_pos hr] at h
        simp only [List.head?] at h
        obtain rfl : a = sh := Option.some_inj.mp h
        have hma : m.combined_score ≤ a.combined_score := hr
        refine ⟨[], l, rfl, by simp, ?_⟩
        intro x hx
        rcases List.mem_cons.mp hx with rfl | hx
        · exact le_refl _
        · exact le_trans (hall x hx) hma
      · rw [List.orderedInsert, if_neg hr] at h
        simp only [List.head?] at h
        obtain rfl : m = sh := Option.some_inj.mp h
        have ham : a.combined_score < m.combined_score := by
          rw [scoredGE] at hr
          exact lt_of_not_le hr
        refine ⟨a :: pre, post, by rw [hdec]; rfl, ?_, ?_⟩
        · intro x hx
          rcases List.mem_cons.mp hx with rfl | hx
          · exact ham
          · exact hpre x hx
        · intro x hx
          rcases List.mem_cons.mp hx with rfl | hx
          · exact le_of_lt ham
          · exact hall x hx

/-- A head of a list is a member. -/
lemma mem_of_head?_some {α : Type} {l : List α} {a : α} (h : l.head? = some a) :
    a ∈ l := by
  cases l with
  | nil => cases h
  | cons x xs =>
    simp only [List.head?] at h
    obtain rfl : x = a := Option.some_inj.mp h
    exact List.mem_cons_self _ _

/-! ## HubScorer lemmas -/

/-- Unfolding equation for one step of the `scoreHubs` loop. -/
lemma scoreHubs_cons (dist : Coord → Coord → ℚ) (loc : Coord)
    (req : List (String × ℤ)) (hub : Hub) (rest : List Hub) :
    scoreHubs dist loc req (hub :: rest) =
      if 100 < dist loc (hub.latitude, hub.longitude) then
        scoreHubs dist loc req rest
      else
        match calculate_match_score req hub.inventory with
        | none => none
        | some m =>
          if m = 0 then scoreHubs dist loc req rest
          else (scoreHubs dist loc req rest).map
            (fun tail =>
              { hub := hub
                distance_km := pyRound 2 (dist loc (hub.latitude, hub.longitude))
                match_score := pyRound 1 m
                combined_score := pyRound 1 (m * (7/10) +
                  (100 / (1 + dist loc (hub.latitude, hub.longitude))) * (3/10)) }
              :: tail) := by
  rfl

/-- Everything `scoreHubs` returns comes from an input hub that survived both
exclusion rules, carrying the rounded derived fields. -/
lemma scoreHubs_mem (dist : Coord → Coord → ℚ) (loc : Coord)
    (req : List (String × ℤ)) (hubs : List Hub) (scored : List ScoredHub)
    (h : scoreHubs dist loc req hubs = some scored) :
    ∀ sh ∈ scored,
      sh.hub ∈ hubs ∧
      dist loc (sh.hub.latitude, sh.hub.longitude) ≤ 100 ∧
      ∃ m, calculate_match_score req sh.hub.inventory = some m ∧ m ≠ 0 ∧
        sh.distance_km = pyRound 2 (dist loc (sh.hub.latitude, sh.hub.longitude)) ∧
        sh.match_score = pyRound 1 m ∧
        sh.combined_score = pyRound 1 (m * (7/10) +
          (100 / (1 + dist loc (sh.hub.latitude, sh.hub.longitude))) * (3/10)) := by
  induction hubs generalizing scored with
  | nil =>
    obtain rfl : [] = scored := Option.some_inj.mp h
    intro sh hsh
    cases hsh
  | cons hub rest ih =>
    rw [scoreHubs_cons] at h
    by_cases hd : 100 < dist loc (hub.latitude, hub.longitude)
    · rw [if_pos hd] at h
      intro sh hsh
      obtain ⟨h1, h2, h3⟩ := ih scored h sh hsh
      exact ⟨List.mem_cons_of_mem _ h1, h2, h3⟩
    · rw [if_neg hd] at h
      cases hcms : calculate_match_score req hub.inventory with
      | none => simp [hcms] at h
      | some m =>
        simp only [hcms] at h
        by_cases hm : m = 0
        · rw [if_pos hm] at h
          intro sh hsh
          obtain ⟨h1, h2, h3⟩ := ih scored h sh hsh
          exact ⟨List.mem_cons_of_mem _ h1, h2, h3⟩
        · rw [if_neg hm] at h
          cases hrest : scoreHubs dist loc req rest with
          | none => simp [hrest] at h
          | some tail =>
            rw [hrest] at h
            simp only [Option.map_some'] at h
            obtain rfl := Option.some_inj.mp h
            intro sh hsh
            rcases List.mem_cons.mp hsh with rfl | hsh
            · refine ⟨List.mem_cons_self _ _, not_lt.mp hd, m, hcms, hm, rfl, rfl, rfl⟩
            · obtain ⟨h1, h2, h3⟩ := ih tail hrest sh hsh
              exact ⟨List.mem_cons_of_mem _ h1, h2, h3⟩

/-- `scoreHubs` succeeds with an empty list exactly when every hub is excluded
by the distance rule or the zero-match rule. -/
lemma scoreHubs_nil_iff (dist : Coord → Coord → ℚ) (loc : Coord)
    (req : List (String × ℤ)) (hubs : List Hub) (scored : List ScoredHub)
    (h : scoreHubs dist loc req hubs = some scored) :
    scored = [] ↔ ∀ hub ∈ hubs, 100 < dist loc (hub.latitude, hub.longitude) ∨
      calculate_match_score req hub.inventory = some 0 := by
  induction hubs generalizing scored with
  | nil =>
    obtain rfl : [] = scored := Option.some_inj.mp h
    simp
  | cons hub rest ih =>
    rw [scoreHubs_cons] at h
    by_cases hd : 100 < dist loc (hub.latitude, hub.longitude)
    · rw [if_pos hd] at h
      rw [ih scored h]
      constructor
      · intro hall hub2 hm2
        rcases List.mem_cons.mp hm2 with rfl | hm2
        · exact Or.inl hd
        · exact hall hub2 hm2
      · intro hall hub2 hm2
        exact hall hub2 (List.mem_cons_of_mem _ hm2)
    · rw [if_neg hd] at h
      cases hcms : calculate_match_score req hub.inventory with
      | none => simp [hcms] at h
      | some m =>
        simp only [hcms] at h
        by_cases hm : m = 0
        · rw [if_pos hm] at h
          rw [ih scored h]
          subst hm
          constructor
          · intro hall hub2 hm2
            rcases List.mem_cons.mp hm2 with rfl | hm2
            · exact Or.inr hcms
            · exact hall hub2 hm2
          · intro hall hub2 hm2
            exact hall hub2 (List.mem_cons_of_mem _ hm2)
        · rw [if_neg hm] at h
          cases hrest : scoreHubs dist loc req rest with
          | none => simp [hrest] at h
          | some tail =>
            rw [hrest] at h
            simp only [Option.map_some'] at h
            obtain rfl := Option.some_inj.mp h
            constructor
            · intro hnil
              cases hnil
            · intro hall
              rcases hall hub (List.mem_cons_self _ _) with hd2 | hcms2
              · exact absurd hd2 hd
              · rw [hcms] at hcms2
                exact absurd (Option.some_inj.mp hcms2) hm

/-- When every hub is excluded, `scoreHubs` succeeds with the empty list. -/
lemma scoreHubs_all_excluded (dist : Coord → Coord → ℚ) (loc : Coord)
    (req : List (String × ℤ)) (hubs : List Hub)
    (hall : ∀ hub ∈ hubs, 100 < dist loc (hub.latitude, hub.longitude) ∨
      calculate_match_score req hub.inventory = some 0) :
    scoreHubs dist loc req hubs = some [] := by
  induction hubs with
  | nil => rfl
  | cons hub rest ih =>
    have htail := ih (fun h2 hm => hall h2 (List.mem_cons_of_mem _ hm))
    rw [scoreHubs_cons]
    by_cases hd : 100 < dist loc (hub.latitude, hub.longitude)
    · rw [if_pos hd]
      exact htail
    · rw [if_neg hd]
      rcases hall hub (List.mem_cons_self _ _) with hd2 | hcms
      · exact absurd hd2 hd
      · simp only [hcms, if_pos rfl]
        exact htail

/-! ## Classifier lemmas -/

/-- `kwMatch` is the boolean of "some keyword occurs in the text". -/
lemma kwMatch_iff (low : String) (words : List String) :
    kwMatch low words = true ↔ ∃ w ∈ words, strIn w low := by
  simp [kwMatch, List.any_eq_true, decide_eq_true_eq]

/-- `kwMatch` is false exactly when no keyword occurs in the text. -/
lemma kwMatch_eq_false_iff (low : String) (words : List String) :
    kwMatch low words = false ↔ ∀ w ∈ words, ¬ strIn w low := by
  rw [← Bool.not_eq_true, kwMatch_iff]
  push_neg
  rfl

/-- `find?` returns the first element satisfying the predicate. -/
lemma find?_append_first {α : Type} (f : α → Bool) (p : α) (pre post : List α)
    (hpre : ∀ q ∈ pre, f q = false) (hp : f p = true) :
    (pre ++ p :: post).find? f = some p := by
  induction pre with
  | nil =>
    simpa using List.find?_cons_of_pos post hp
  | cons a l ih =>
    have ha : f a = false := hpre a (List.mem_cons_self _ _)
    rw [List.cons_append, List.find?_cons_of_neg _ (by simp [ha])]
    exact ih (fun q hq => hpre q (List.mem_cons_of_mem _ hq))

/-- `classify_disaster_type` unfolded to its scan over the keyword table. -/
lemma classify_unfold (t : String) :
    classify_disaster_type t =
      match disaster_keywords.find? (fun p => kwMatch (strLower t) p.2) with
      | some p => p.1
      | none => "unknown" := rfl

/-- One step of the keyword-table scan. -/
lemma find?_kw_cons (t : String) (lb : String) (ws : List String)
    (rest : List (String × List String)) :
    ((lb, ws) :: rest).find? (fun p => kwMatch (strLower t) p.2) =
      if kwMatch (strLower t) ws then some (lb, ws)
      else rest.find? (fun p => kwMatch (strLower t) p.2) := by
  by_cases he : kwMatch (strLower t) ws = true
  · rw [if_pos he]
    exact List.find?_cons_of_pos _ he
  · rw [if_neg he]
    exact List.find?_cons_of_neg _ (by simpa using he)

/-- The keyword table written out as an explicit cons chain. -/
lemma disaster_keywords_cons :
    disaster_keywords =
      ("earthquake", ["earthquake", "tremor", "seismic", "quake"]) ::
      ("flood", ["flood", "flooding", "inundation", "deluge"]) ::
      ("hurricane", ["hurricane", "cyclone", "typhoon", "storm"]) ::
      ("wildfire", ["wildfire", "fire", "blaze", "burning"]) ::
      ("tornado", ["tornado", "twister"]) ::
      ("tsunami", ["tsunami", "tidal wave"]) ::
      ("landslide", ["landslide", "mudslide"]) ::
      ("volcano", ["volcano", "volcanic", "eruption"]) ::
      ("drought", ["drought", "dry", "water shortage"]) ::
      ("blizzard", ["blizzard", "snowstorm", "winter storm"]) :: [] := rfl

/-- `classify_disaster_type` can only answer blizzard when the word blizzard
itself occurs in the lower-cased text: the other two blizzard keywords both
contain storm, which the earlier hurricane entry would have caught. -/
lemma classify_blizzard_main (t : String)
    (h : classify_disaster_type t = "blizzard") : strIn "blizzard" (strLower t) := by
  rw [classify_unfold, disaster_keywords_cons] at h
  rw [find?_kw_cons] at h
  by_cases h1 : kwMatch (strLower t) ["earthquake", "tremor", "seismic", "quake"] = true
  · rw [if_pos h1] at h
    exact absurd h (by decide)
  rw [if_neg h1, find?_kw_cons] at h
  by_cases h2 : kwMatch (strLower t) ["flood", "flooding", "inundation", "deluge"] = true
  · rw [if_pos h2] at h
    exact absurd h (by decide)
  rw [if_neg h2, find?_kw_cons] at h
  by_cases h3 : kwMatch (strLower t) ["hurricane", "cyclone", "typhoon", "storm"] = true
  · rw [if_pos h3] at h
    exact absurd h (by decide)
  rw [if_neg h3, find?_kw_cons] at h
  by_cases h4 : kwMatch (strLower t) ["wildfire", "fire", "blaze", "burning"] = true
  · rw [if_pos h4] at h
    exact absurd h (by decide)
  rw [if_neg h4, find?_kw_cons] at h
  by_cases h5 : kwMatch (strLower t) ["tornado", "twister"] = true
  · rw [if_pos h5] at h
    exact absurd h (by decide)
  rw [if_neg h5, find?_kw_cons] at h
  by_cases h6 : kwMatch (strLower t) ["tsunami", "tidal wave"] = true
  · rw [if_pos h6] at h
    exact absurd h (by decide)
  rw [if_neg h6, find?_kw_cons] at h
  by_cases h7 : kwMatch (strLower t) ["landslide", "mudslide"] = true
  · rw [if_pos h7] at h
    exact absurd h (by decide)
  rw [if_neg h7, find?_kw_cons] at h
  by_cases h8 : kwMatch (strLower t) ["volcano", "volcanic", "eruption"] = true
  · rw [if_pos h8] at h
    exact absurd h (by decide)
  rw [if_neg h8, find?_kw_cons] at h
  by_cases h9 : kwMatch (strLower t) ["drought", "dry", "water shortage"] = true
  · rw [if_pos h9] at h
    exact absurd h (by decide)
  rw [if_neg h9, find?_kw_cons] at h
  by_cases h10 : kwMatch (strLower t) ["blizzard", "snowstorm", "winter storm"] = true
  · rw [kwMatch_iff] at h10
    obtain ⟨w, hw, hwin⟩ := h10
    have hstorm : ¬ strIn "storm" (strLower t) := by
      intro hs
      exact h3 ((kwMatch_iff _ _).mpr ⟨"storm", by simp, hs⟩)
    rcases (by simpa using hw :
        w = "blizzard" ∨ w = "snowstorm" ∨ w = "winter storm") with rfl | rfl | rfl
    · exact hwin
    · exact absurd (List.IsInfix.trans (by decide) hwin) hstorm
    · exact absurd (List.IsInfix.trans (by decide) hwin) hstorm
  · rw [if_neg h10, List.find?_nil] at h
    exact absurd h (by decide)

/-- Helper infix facts used by the blizzard-shadowing argument. -/
lemma storm_infix_snowstorm : "storm".data <:+: "snowstorm".data := by decide

/-- The word storm also occurs inside the phrase winter storm. -/
lemma storm_infix_winterstorm : "storm".data <:+: "winter storm".data := by decide

/-! ## Concrete evaluation lemmas -/

/-- `rndHalfEven` fixes integers. -/
lemma rndHalfEven_intCast (m : ℤ) : rndHalfEven (m : ℚ) = m := by
  rw [rndHalfEven_eval _ m (le_refl _) (by linarith)]
  norm_num

/-- `pyRound` fixes values that are exact at `n` decimals. -/
lemma pyRound_exact (n : ℕ) (x : ℚ) (m : ℤ) (h : x * 10 ^ n = (m : ℚ)) :
    pyRound n x = x := by
  have hpow : (0:ℚ) < 10 ^ n := by positivity
  rw [pyRound, h, rndHalfEven_intCast, ← h]
  field_simp

/-- Scenario value: `round(79.98, 1) == 80.0`. -/
lemma pyRound_7998 : pyRound 1 (3999/50) = 80 := by
  rw [pyRound, show (3999/50 : ℚ) * 10 ^ 1 = 3999/5 by norm_num,
    rndHalfEven_eval (3999/5) 799 (by norm_num) (by norm_num)]
  norm_num

/-- Scenario value: `round(80.05, 1) == 80.0` (half rounds to even). -/
lemma pyRound_8005 : pyRound 1 (1601/20) = 80 := by
  rw [pyRound, show (1601/20 : ℚ) * 10 ^ 1 = 1601/2 by norm_num,
    rndHalfEven_eval (1601/2) 800 (by norm_num) (by norm_num)]
  norm_num

/-- Scenario value: `round(0.01, 1) == 0.0`. -/
lemma pyRound_001 : pyRound 1 (1/100) = 0 := by
  rw [pyRound, show (1/100 : ℚ) * 10 ^ 1 = 1/10 by norm_num,
    rndHalfEven_eval (1/10) 0 (by norm_num) (by norm_num)]
  norm_num

/-- Scenario value: `round(30.007, 1) == 30.0`. -/
lemma pyRound_30007 : pyRound 1 (30007/1000) = 30 := by
  rw [pyRound, show (30007/1000 : ℚ) * 10 ^ 1 = 30007/100 by norm_num,
    rndHalfEven_eval (30007/100) 300 (by norm_num) (by norm_num)]
  norm_num

/-- Scenario value: `round(49.998, 2) == 50.0`. -/
lemma pyRound_49998 : pyRound 2 (24999/500) = 50 := by
  rw [pyRound, show (24999/500 : ℚ) * 10 ^ 2 = 24999/5 by norm_num,
    rndHalfEven_eval (24999/5) 4999 (by norm_num) (by norm_num)]
  norm_num

/-- A request for `n > 0` units of one item against a stock of exactly `n`
units scores 100. -/
lemma cms_self (s : String) (n : ℤ) (hn : 0 < n) :
    calculate_match_score [(s, n)] [(s, n)] = some 100 := by
  have hsum : sumVals [(s, n)] = n := by simp [sumVals]
  rw [calculate_match_score_of_total_ne _ _ (by rw [hsum]; exact ne_of_gt hn)]
  rw [show match_items [(s, n)] [(s, n)] = [(s, n)] by
    simp [match_items, List.filterMap_cons, getVal?, hn]]
  rw [hsum]
  congr 1
  rw [div_self (by exact_mod_cast ne_of_gt hn)]
  norm_num

/-- Match score of `hubA` against the 1000-unit water request. -/
lemma cms_hubA : calculate_match_score reqK hubA.inventory = some (357/5) := by
  simp only [reqK, hubA, calculate_match_score, match_items, List.filterMap_cons,
    List.filterMap_nil, getVal?, sumVals]
  norm_num

/-- Match score of `hubB` against the 1000-unit water request. -/
lemma cms_hubB : calculate_match_score reqK hubB.inventory = some (143/2) := by
  simp only [reqK, hubB, calculate_match_score, match_items, List.filterMap_cons,
    List.filterMap_nil, getVal?, sumVals]
  norm_num

/-- Match score of `hubP` against a 10000-unit water request. -/
lemma cms_hubP :
    calculate_match_score [("water", 10000)] hubP.inventory = some (1/100) := by
  simp only [hubP, calculate_match_score, match_items, List.filterMap_cons,
    List.filterMap_nil, getVal?, sumVals]
  norm_num

/-- Scoring a single hub at distance zero with a full match. -/
lemma scoreHubs_single (hub : Hub) (req : List (String × ℤ))
    (h : calculate_match_score req hub.inventory = some 100) :
    scoreHubs distZero (0, 0) req [hub] =
      some [{ hub := hub, distance_km := 0, match_score := 100,
              combined_score := 100 }] := by
  rw [scoreHubs_cons]
  rw [show distZero (0, 0) (hub.latitude, hub.longitude) = 0 from rfl]
  rw [if_neg (by norm_num)]
  simp only [h]
  rw [if_neg (by norm_num)]
  have e1 : pyRound 2 (0:ℚ) = 0 := pyRound_exact 2 0 0 (by norm_num)
  have e2 : pyRound 1 (100:ℚ) = 100 := pyRound_exact 1 100 1000 (by norm_num)
  have e3 : pyRound 1 ((100:ℚ) * (7/10) + 100 / (1 + 0) * (3/10)) = 100 := by
    rw [show (100:ℚ) * (7/10) + 100 / (1 + 0) * (3/10) = 100 by norm_num]
    exact e2
  simp only [show scoreHubs distZero (0, 0) req [] = some [] from rfl,
    Option.map_some', e1, e2, e3]

/-- Best hub for a single fully-matching hub at distance zero. -/
lemma find_best_single (hub : Hub) (req : List (String × ℤ))
    (h : calculate_match_score req hub.inventory = some 100) :
    find_best_hub_for_request distZero (0, 0) req [hub] =
      some (some { hub := hub, distance_km := 0, match_score := 100,
                   combined_score := 100 }) := by
  rw [find_best_hub_for_request, scoreHubs_single hub req h]
  rfl

/-- Scoring the two-hub counterexample list: both hubs survive, both rounded
combined scores are 80.0. -/
lemma scoreHubs_AB :
    scoreHubs distZero (0, 0) reqK [hubA, hubB] =
      some [{ hub := hubA, distance_km := 0, match_score := 357/5,
              combined_score := 80 },
            { hub := hubB, distance_km := 0, match_score := 143/2,
              combined_score := 80 }] := by
  rw [scoreHubs_cons]
  rw [show distZero (0, 0) (hubA.latitude, hubA.longitude) = 0 from rfl]
  rw [if_neg (by norm_num)]
  simp only [cms_hubA]
  rw [if_neg (by norm_num)]
  rw [scoreHubs_cons]
  rw [show distZero (0, 0) (hubB.latitude, hubB.longitude) = 0 from rfl]
  rw [if_neg (by norm_num)]
  simp only [cms_hubB]
  rw [if_neg (by norm_num)]
  have e1 : pyRound 2 (0:ℚ) = 0 := pyRound_exact 2 0 0 (by norm_num)
  have eA : pyRound 1 (357/5 : ℚ) = 357/5 := pyRound_exact 1 _ 714 (by norm_num)
  have eB : pyRound 1 (143/2 : ℚ) = 143/2 := pyRound_exact 1 _ 715 (by norm_num)
  have ecA : pyRound 1 ((357/5 : ℚ) * (7/10) + 100 / (1 + 0) * (3/10)) = 80 := by
    rw [show (357/5 : ℚ) * (7/10) + 100 / (1 + 0) * (3/10) = 3999/50 by norm_num]
    exact pyRound_7998
  have ecB : pyRound 1 ((143/2 : ℚ) * (7/10) + 100 / (1 + 0) * (3/10)) = 80 := by
    rw [show (143/2 : ℚ) * (7/10) + 100 / (1 + 0) * (3/10) = 1601/20 by norm_num]
    exact pyRound_8005
  simp only [show scoreHubs distZero (0, 0) reqK [] = some [] from rfl,
    Option.map_some', e1, eA, eB, ecA, ecB]

/-- The best-hub selection on the counterexample list returns `hubA` (the
stable descending sort sees two equal rounded keys and keeps input order). -/
lemma find_best_AB :
    find_best_hub_for_request distZero (0, 0) reqK [hubA, hubB] =
      some (some { hub := hubA, distance_km := 0, match_score := 357/5,
                   combined_score := 80 }) := by
  rw [find_best_hub_for_request, scoreHubs_AB, Option.map_some']
  rw [List.insertionSort, List.insertionSort, List.insertionSort,
    List.orderedInsert]
  rw [List.orderedInsert, if_pos (by exact le_refl (80:ℚ))]
  rfl

/-- Scoring `hubP` against the 10000-unit request: the unrounded match score
is 0.01, the stored rounded `match_score` is 0.0. -/
lemma scoreHubs_hubP :
    scoreHubs distZero (0, 0) [("water", 10000)] [hubP] =
      some [{ hub := hubP, distance_km := 0, match_score := 0,
              combined_score := 30 }] := by
  rw [scoreHubs_cons]
  rw [show distZero (0, 0) (hubP.latitude, hubP.longitude) = 0 from rfl]
  rw [if_neg (by norm_num)]
  simp only [cms_hubP]
  rw [if_neg (by norm_num)]
  have e1 : pyRound 2 (0:ℚ) = 0 := pyRound_exact 2 0 0 (by norm_num)
  have em : pyRound 1 ((1:ℚ)/100) = 0 := pyRound_001
  have ec : pyRound 1 ((1/100 : ℚ) * (7/10) + 100 / (1 + 0) * (3/10)) = 30 := by
    rw [show (1/100 : ℚ) * (7/10) + 100 / (1 + 0) * (3/10) = 30007/1000 by norm_num]
    exact pyRound_30007
  simp only [show scoreHubs distZero (0, 0) [("water", 10000)] [] = some [] from rfl,
    Option.map_some', e1, em, ec]

/-- The returned best hub for the `hubP` request carries `match_score = 0.0`. -/
lemma find_best_hubP :
    find_best_hub_for_request distZero (0, 0) [("water", 10000)] [hubP] =
      some (some { hub := hubP, distance_km := 0, match_score := 0,
                   combined_score := 30 }) := by
  rw [find_best_hub_for_request, scoreHubs_hubP]
  rfl

/-- Unrounded combined score of `hubA`: 79.98. -/
lemma combined_hubA : combinedScoreOf distZero (0, 0) reqK hubA = some (3999/50) := by
  rw [combinedScoreOf, cms_hubA, Option.map_some']
  congr 1
  rw [show distZero (0, 0) (hubA.latitude, hubA.longitude) = 0 from rfl]
  norm_num

/-- Unrounded combined score of `hubB`: 80.05. -/
lemma combined_hubB : combinedScoreOf distZero (0, 0) reqK hubB = some (1601/20) := by
  rw [combinedScoreOf, cms_hubB, Option.map_some']
  congr 1
  rw [show distZero (0, 0) (hubB.latitude, hubB.longitude) = 0 from rfl]
  norm_num

/-- `find_nearby_hubs` unfolded (the local `nearby` list inlined). -/
lemma find_nearby_unfold (dist : Coord → Coord → ℚ) (loc : Coord)
    (hubs : List Hub) (max_distance_km : ℚ) :
    find_nearby_hubs dist loc hubs max_distance_km =
      (hubs.filterMap (nearbyEntry dist loc max_distance_km)).insertionSort
        nearbyLE := rfl

/-- `nearbyEntry` unfolded (the local `distance` inlined). -/
lemma nearbyEntry_eq (dist : Coord → Coord → ℚ) (loc : Coord)
    (max_distance_km : ℚ) (hub : Hub) :
    nearbyEntry dist loc max_distance_km hub =
      if dist loc (hub.latitude, hub.longitude) ≤ max_distance_km then
        some { hub := hub,
               distance_km := pyRound 2 (dist loc (hub.latitude, hub.longitude)) }
      else none := rfl

/-- The boundary hub at exactly 49.998 km is kept, and its rounded
`distance_km` field reads 50.0. -/
lemma find_nearby_hubN :
    find_nearby_hubs distLat (0, 0) [hubN] (24999/500) =
      [{ hub := hubN, distance_km := 50 }] := by
  have he : nearbyEntry distLat (0, 0) (24999/500) hubN =
      some { hub := hubN, distance_km := 50 } := by
    rw [nearbyEntry_eq,
      show distLat (0, 0) (hubN.latitude, hubN.longitude) = 24999/500 from rfl,
      if_pos (le_refl _), pyRound_49998]
  rw [find_nearby_unfold]
  rw [show [hubN].filterMap (nearbyEntry distLat (0, 0) (24999/500)) =
    [{ hub := hubN, distance_km := 50 }] by rw [List.filterMap_cons, he]; rfl]
  rfl

/-- `assess_severity` unfolded to its keyword cascade. -/
lemma assess_unfold (t : String) :
    assess_severity t =
      if kwMatch (strLower t) critical_keywords then "critical"
      else if kwMatch (strLower t) high_keywords then "high"
      else if kwMatch (strLower t) medium_keywords then "medium"
      else "low" := rfl

/-! ## Claim theorems -/

/-- C5: `match_items` maps each requested item that is available with
positive quantity to `min(requested[item], available[item])`; every matched
quantity is bounded by both sides; items absent from `available`, or present
with quantity 0, do not appear. -/
theorem match_items_spec (requested available : List (String × ℤ)) (item : String) :
    (getVal? (match_items requested available) item =
      match getVal? requested item, getVal? available item with
      | some rq, some aq => if 0 < aq then some (min rq aq) else none
      | _, _ => none)
    ∧ (∀ q, getVal? (match_items requested available) item = some q →
        ∃ rq aq, getVal? requested item = some rq ∧
          getVal? available item = some aq ∧ 0 < aq ∧ q = min rq aq ∧
          q ≤ rq ∧ q ≤ aq)
    ∧ (∀ p ∈ match_items requested available,
        ∃ rq aq, (p.1, rq) ∈ requested ∧ getVal? available p.1 = some aq ∧
          0 < aq ∧ p.2 = min rq aq ∧ p.2 ≤ rq ∧ p.2 ≤ aq) := by
  refine ⟨getVal?_match_items requested available item, ?_, ?_⟩
  · intro q hq
    rw [getVal?_match_items] at hq
    cases hR : getVal? requested item with
    | none => simp [hR] at hq
    | some rq =>
      cases hA : getVal? available item with
      | none => simp [hR, hA] at hq
      | some aq =>
        simp only [hR, hA] at hq
        by_cases haq : 0 < aq
        · rw [if_pos haq] at hq
          obtain rfl : min rq aq = q := Option.some_inj.mp hq
          exact ⟨rq, aq, rfl, rfl, haq, rfl, min_le_left _ _, min_le_right _ _⟩
        · rw [if_neg haq] at hq
          cases hq
  · intro p hp
    obtain ⟨rq, aq, hmem, hA, haq, hmin⟩ := mem_match_items requested available p hp
    exact ⟨rq, aq, hmem, hA, haq, hmin,
      hmin ▸ min_le_left _ _, hmin ▸ min_le_right _ _⟩

/-- C5 witness: concrete instance of the bound clause. -/
theorem match_items_spec_witness :
    getVal? (match_items [("water", 50), ("blankets", 20)] [("water", 25)]) "water" =
      some 25
    ∧ ∃ rq aq, getVal? [("water", 50), ("blankets", 20)] "water" = some rq ∧
        getVal? [("water", 25)] "water" = some aq ∧ 0 < aq ∧ (25:ℤ) = min rq aq ∧
        (25:ℤ) ≤ rq ∧ (25:ℤ) ≤ aq :=
  ⟨by decide,
   (match_items_spec [("water", 50), ("blankets", 20)] [("water", 25)] "water").2.1
     25 (by decide)⟩

/-- C2 (amended): `calculate_match_score` returns a value whenever `requested`
is empty or the requested total is nonzero, evaluating the documented formula;
a non-empty all-zero request instead raises `ZeroDivisionError`. -/
theorem match_score_total (requested available : List (String × ℤ)) :
    (requested = [] → calculate_match_score requested available = some 0)
    ∧ (sumVals requested ≠ 0 →
        calculate_match_score requested available =
          some ((sumVals (match_items requested available) : ℚ) /
            (sumVals requested : ℚ) * 100)) := by
  constructor
  · intro h
    subst h
    rfl
  · intro h
    exact calculate_match_score_of_total_ne _ _ h

/-- C2 counterexample: the non-empty request of zero units divides by zero
(`none` models the `ZeroDivisionError`), contradicting totality. -/
theorem match_score_div_by_zero :
    calculate_match_score [("food", 0)] [("food", 5)] = none := by decide

/-- C2 witness. -/
theorem match_score_total_witness :
    sumVals [("water", 50)] ≠ 0 ∧
    calculate_match_score [("water", 50)] [] =
      some ((sumVals (match_items [("water", 50)] []) : ℚ) /
        (sumVals [("water", 50)] : ℚ) * 100) :=
  ⟨by decide, (match_score_total [("water", 50)] []).2 (by decide)⟩

/-- C6 (amended): for non-negative quantities the match score is 0 on an
empty request, lies in [0, 100] whenever the requested total is nonzero, and
is 0 against an empty inventory — the all-zero non-empty request instead
raises. -/
theorem match_score_bounds (requested available : List (String × ℤ))
    (hr : ∀ p ∈ requested, 0 ≤ p.2) :
    (requested = [] → calculate_match_score requested available = some 0)
    ∧ (sumVals requested ≠ 0 →
        ∃ q, calculate_match_score requested available = some q ∧ 0 ≤ q ∧ q ≤ 100)
    ∧ (available = [] → sumVals requested ≠ 0 →
        calculate_match_score requested available = some 0) := by
  refine ⟨?_, ?_, ?_⟩
  · intro h
    subst h
    rfl
  · intro h
    obtain ⟨h1, h2⟩ := sumVals_match_items_le requested available hr
    have htr : 0 < sumVals requested :=
      lt_of_le_of_ne (sumVals_nonneg _ hr) (Ne.symm h)
    have htrq : (0:ℚ) < (sumVals requested : ℚ) := by exact_mod_cast htr
    refine ⟨_, calculate_match_score_of_total_ne _ _ h, ?_, ?_⟩
    · apply mul_nonneg
      · apply div_nonneg
        · exact_mod_cast h2
        · exact le_of_lt htrq
      · norm_num
    · have hdiv : (sumVals (match_items requested available) : ℚ) /
          (sumVals requested : ℚ) ≤ 1 :=
        (div_le_one htrq).mpr (by exact_mod_cast h1)
      nlinarith
  · intro ha h
    subst ha
    rw [calculate_match_score_of_total_ne _ _ h, match_items_nil_available]
    norm_num [sumVals]

/-- C6 counterexample: a valid (non-negative) non-empty request with empty
inventory raises instead of returning 0. -/
theorem match_score_all_zero_raises :
    calculate_match_score [("water", 0)] [] = none
    ∧ (∀ p ∈ [(("water" : String), (0:ℤ))], 0 ≤ p.2)
    ∧ [(("water" : String), (0:ℤ))] ≠ [] :=
  ⟨by decide, by decide, by decide⟩

/-- C6 witness. -/
theorem match_score_bounds_witness :
    (∀ p ∈ [(("water" : String), (50:ℤ))], 0 ≤ p.2)
    ∧ sumVals [("water", 50)] ≠ 0
    ∧ ∃ q, calculate_match_score [("water", 50)] [("water", 100)] = some q ∧
        0 ≤ q ∧ q ≤ 100 :=
  ⟨by decide, by decide,
   (match_score_bounds [("water", 50)] [("water", 100)] (by decide)).2.1 (by decide)⟩

/-- C3 (amended): `find_best_hub_for_request` returns `None` exactly when
every hub is excluded (`distance > 100` or computed `match_score == 0`), and
a returned hub has computed distance and rounded `distance_km` at most 100 and
a nonzero computed match score — its rounded `match_score` field, however,
may round down to 0.0. -/
theorem best_hub_exclusion (dist : Coord → Coord → ℚ) (loc : Coord)
    (req : List (String × ℤ)) (hubs : List Hub) :
    (find_best_hub_for_request dist loc req hubs = some none ↔
      ∀ hub ∈ hubs, 100 < dist loc (hub.latitude, hub.longitude) ∨
        calculate_match_score req hub.inventory = some 0)
    ∧ (∀ sh, find_best_hub_for_request dist loc req hubs = some (some sh) →
        dist loc (sh.hub.latitude, sh.hub.longitude) ≤ 100 ∧
        sh.distance_km ≤ 100 ∧
        ∃ m, calculate_match_score req sh.hub.inventory = some m ∧ m ≠ 0 ∧
          sh.match_score = pyRound 1 m) := by
  constructor
  · constructor
    · intro h
      cases hs : scoreHubs dist loc req hubs with
      | none =>
        rw [find_best_hub_for_request, hs] at h
        cases h
      | some scored =>
        rw [find_best_hub_for_request, hs, Option.map_some'] at h
        have hnone : (scored.insertionSort scoredGE).head? = none :=
          Option.some_inj.mp h
        have hnil : scored = [] :=
          (insertionSort_eq_nil_iff scoredGE scored).mp
            (List.head?_eq_none_iff.mp hnone)
        exact (scoreHubs_nil_iff dist loc req hubs scored hs).mp hnil
    · intro hall
      rw [find_best_hub_for_request, scoreHubs_all_excluded dist loc req hubs hall]
      rfl
  · intro sh h
    cases hs : scoreHubs dist loc req hubs with
    | none =>
      rw [find_best_hub_for_request, hs] at h
      cases h
    | some scored =>
      rw [find_best_hub_for_request, hs, Option.map_some'] at h
      have hhead : (scored.insertionSort scoredGE).head? = some sh :=
        Option.some_inj.mp h
      have hmem : sh ∈ scored :=
        (List.mem_insertionSort scoredGE).mp (mem_of_head?_some hhead)
      obtain ⟨_, hdist, m, hm, hm0, hdk, hms, _⟩ :=
        scoreHubs_mem dist loc req hubs scored hs sh hmem
      refine ⟨hdist, ?_, m, hm, hm0, hms⟩
      rw [hdk]
      have := pyRound_le_int 2 (dist loc (sh.hub.latitude, sh.hub.longitude)) 100
        (by exact_mod_cast hdist)
      exact_mod_cast this

/-- C3 counterexample: a returned hub whose rounded `match_score` field is
exactly 0.0 (the unrounded score is 0.01). -/
theorem best_hub_zero_match_field :
    find_best_hub_for_request distZero (0, 0) [("water", 10000)] [hubP] =
      some (some { hub := hubP, distance_km := 0, match_score := 0,
                   combined_score := 30 })
    ∧ ({ hub := hubP, distance_km := 0, match_score := 0,
         combined_score := 30 } : ScoredHub).match_score = 0 :=
  ⟨find_best_hubP, rfl⟩

/-- C3 witness. -/
theorem best_hub_exclusion_witness :
    find_best_hub_for_request distZero (0, 0) [("food", 3)] [hubV] =
      some (some { hub := hubV, distance_km := 0, match_score := 100,
                   combined_score := 100 })
    ∧ (distZero (0, 0) (hubV.latitude, hubV.longitude) ≤ 100 ∧ (0:ℚ) ≤ 100 ∧
        ∃ m, calculate_match_score [("food", 3)] hubV.inventory = some m ∧ m ≠ 0 ∧
          (100:ℚ) = pyRound 1 m) :=
  ⟨find_best_single hubV [("food", 3)] (cms_self "food" 3 (by norm_num)),
   (best_hub_exclusion distZero (0, 0) [("food", 3)] [hubV]).2 _
     (find_best_single hubV [("food", 3)] (cms_self "food" 3 (by norm_num)))⟩

/-- C1 (amended): the returned hub is the first hub, in scoring order, whose
ROUNDED `combined_score` field attains the maximum among survivors — the
stable descending sort ranks on the rounded values, while the unrounded
combined score is only reflected in the rounded output field. -/
theorem best_hub_first_max_rounded (dist : Coord → Coord → ℚ) (loc : Coord)
    (req : List (String × ℤ)) (hubs : List Hub) (scored : List ScoredHub)
    (sh : ScoredHub)
    (hs : scoreHubs dist loc req hubs = some scored)
    (hb : find_best_hub_for_request dist loc req hubs = some (some sh)) :
    (∃ c, combinedScoreOf dist loc req sh.hub = some c ∧
        sh.combined_score = pyRound 1 c)
    ∧ ∃ pre post, scored = pre ++ sh :: post ∧
        (∀ x ∈ pre, x.combined_score < sh.combined_score) ∧
        ∀ x ∈ scored, x.combined_score ≤ sh.combined_score := by
  rw [find_best_hub_for_request, hs, Option.map_some'] at hb
  have hhead : (scored.insertionSort scoredGE).head? = some sh :=
    Option.some_inj.mp hb
  have hmem : sh ∈ scored :=
    (List.mem_insertionSort scoredGE).mp (mem_of_head?_some hhead)
  obtain ⟨_, _, m, hm, _, _, _, hcs⟩ :=
    scoreHubs_mem dist loc req hubs scored hs sh hmem
  constructor
  · refine ⟨m * (7/10) +
      (100 / (1 + dist loc (sh.hub.latitude, sh.hub.longitude))) * (3/10), ?_, hcs⟩
    rw [combinedScoreOf, hm, Option.map_some']
  · exact head_insertionSort_scoredGE scored sh hhead

/-- C1 counterexample: with two surviving hubs whose unrounded combined
scores are 79.98 < 80.05 but which both round to 80.0, the code returns the
FIRST hub — not the one with the larger unrounded combined score. -/
theorem best_hub_rounded_selection_cex :
    find_best_hub_for_request distZero (0, 0) reqK [hubA, hubB] =
      some (some { hub := hubA, distance_km := 0, match_score := 357/5,
                   combined_score := 80 })
    ∧ combinedScoreOf distZero (0, 0) reqK hubA = some (3999/50)
    ∧ combinedScoreOf distZero (0, 0) reqK hubB = some (1601/20)
    ∧ distZero (0, 0) (hubB.latitude, hubB.longitude) ≤ 100
    ∧ calculate_match_score reqK hubB.inventory = some (143/2)
    ∧ (143/2 : ℚ) ≠ 0
    ∧ (3999/50 : ℚ) < 1601/20 :=
  ⟨find_best_AB, combined_hubA, combined_hubB,
   by rw [show distZero (0, 0) (hubB.latitude, hubB.longitude) = 0 from rfl]; norm_num,
   cms_hubB, by norm_num, by norm_num⟩

/-- C1 witness. -/
theorem best_hub_first_max_rounded_witness :
    scoreHubs distZero (0, 0) [("water", 2)] [hubU] =
      some [{ hub := hubU, distance_km := 0, match_score := 100,
              combined_score := 100 }]
    ∧ find_best_hub_for_request distZero (0, 0) [("water", 2)] [hubU] =
      some (some { hub := hubU, distance_km := 0, match_score := 100,
                   combined_score := 100 })
    ∧ ((∃ c, combinedScoreOf distZero (0, 0) [("water", 2)] hubU = some c ∧
          (100:ℚ) = pyRound 1 c)
      ∧ ∃ pre post,
          [({ hub := hubU, distance_km := 0, match_score := 100,
              combined_score := 100 } : ScoredHub)] =
            pre ++ { hub := hubU, distance_km := 0, match_score := 100,
                     combined_score := 100 } :: post ∧
          (∀ x ∈ pre, x.combined_score < (100:ℚ)) ∧
          ∀ x ∈ [({ hub := hubU, distance_km := 0, match_score := 100,
                    combined_score := 100 } : ScoredHub)],
            x.combined_score ≤ (100:ℚ)) :=
  ⟨scoreHubs_single hubU [("water", 2)] (cms_self "water" 2 (by norm_num)),
   find_best_single hubU [("water", 2)] (cms_self "water" 2 (by norm_num)),
   best_hub_first_max_rounded distZero (0, 0) [("water", 2)] [hubU]
     [{ hub := hubU, distance_km := 0, match_score := 100, combined_score := 100 }]
     { hub := hubU, distance_km := 0, match_score := 100, combined_score := 100 }
     (scoreHubs_single hubU [("water", 2)] (cms_self "water" 2 (by norm_num)))
     (find_best_single hubU [("water", 2)] (cms_self "water" 2 (by norm_num)))⟩

/-- C4 (amended): `find_nearby_hubs` is sorted ascending by `distance_km`
with stable ties, keeps exactly the hubs whose computed distance is within
`max_distance_km` (inclusive), never errors on empty input, and each kept
row's rounded `distance_km` equals `round(distance, 2)` — which can exceed
`max_distance_km` by at most half an ulp (0.005). -/
theorem find_nearby_spec (dist : Coord → Coord → ℚ) (loc : Coord)
    (hubs : List Hub) (max_distance_km : ℚ) :
    List.Sorted nearbyLE (find_nearby_hubs dist loc hubs max_distance_km)
    ∧ (∀ nh ∈ find_nearby_hubs dist loc hubs max_distance_km,
        nh.hub ∈ hubs ∧
        dist loc (nh.hub.latitude, nh.hub.longitude) ≤ max_distance_km ∧
        nh.distance_km = pyRound 2 (dist loc (nh.hub.latitude, nh.hub.longitude)) ∧
        nh.distance_km ≤ max_distance_km + 1/200)
    ∧ (∀ hub ∈ hubs, dist loc (hub.latitude, hub.longitude) ≤ max_distance_km →
        ∃ nh ∈ find_nearby_hubs dist loc hubs max_distance_km,
          nh.hub = hub ∧
          nh.distance_km = pyRound 2 (dist loc (hub.latitude, hub.longitude)))
    ∧ List.Perm (find_nearby_hubs dist loc hubs max_distance_km)
        (hubs.filterMap (nearbyEntry dist loc max_distance_km))
    ∧ (∀ a b : NearbyHub,
        List.Sublist [a, b] (hubs.filterMap (nearbyEntry dist loc max_distance_km)) →
        a.distance_km ≤ b.distance_km →
        List.Sublist [a, b] (find_nearby_hubs dist loc hubs max_distance_km))
    ∧ (hubs = [] → find_nearby_hubs dist loc hubs max_distance_km = [])
    ∧ ((∀ hub ∈ hubs, ¬ dist loc (hub.latitude, hub.longitude) ≤ max_distance_km) →
        find_nearby_hubs dist loc hubs max_distance_km = []) := by
  refine ⟨?_, ?_, ?_, ?_, ?_, ?_, ?_⟩
  · rw [find_nearby_unfold]
    exact List.sorted_insertionSort nearbyLE _
  · intro nh hnh
    rw [find_nearby_unfold, List.mem_insertionSort] at hnh
    obtain ⟨hub, hhub, hfe⟩ := List.mem_filterMap.mp hnh
    rw [nearbyEntry_eq] at hfe
    by_cases hd : dist loc (hub.latitude, hub.longitude) ≤ max_distance_km
    · rw [if_pos hd] at hfe
      obtain rfl := Option.some_inj.mp hfe
      refine ⟨hhub, hd, rfl, ?_⟩
      have h1 := pyRound_le_add 2 (dist loc (hub.latitude, hub.longitude))
      have h2 : (1 : ℚ) / (2 * 10 ^ 2) = 1/200 := by norm_num
      rw [h2] at h1
      linarith
    · rw [if_neg hd] at hfe
      cases hfe
  · intro hub hhub hd
    refine ⟨⟨hub, pyRound 2 (dist loc (hub.latitude, hub.longitude))⟩, ?_, rfl, rfl⟩
    rw [find_nearby_unfold, List.mem_insertionSort]
    exact List.mem_filterMap.mpr ⟨hub, hhub, by rw [nearbyEntry_eq, if_pos hd]⟩
  · rw [find_nearby_unfold]
    exact List.perm_insertionSort nearbyLE _
  · intro a b hsub hle
    rw [find_nearby_unfold]
    exact List.pair_sublist_insertionSort hle hsub
  · intro h
    subst h
    rfl
  · intro h
    rw [find_nearby_unfold]
    rw [List.filterMap_eq_nil_iff.mpr
      (fun hub hhub => by rw [nearbyEntry_eq, if_neg (h hub hhub)])]
    rfl

/-- C4 counterexample: at `max_distance_km = 49.998` the hub at exactly
49.998 km is kept, but its rounded `distance_km` field reads 50.0, which
exceeds `max_distance_km`. -/
theorem find_nearby_rounded_exceeds_max :
    find_nearby_hubs distLat (0, 0) [hubN] (24999/500) =
      [{ hub := hubN, distance_km := 50 }]
    ∧ ¬ (({ hub := hubN, distance_km := 50 } : NearbyHub).distance_km ≤
        24999/500) :=
  ⟨find_nearby_hubN, by show ¬ ((50:ℚ) ≤ 24999/500); norm_num⟩

/-- C4 witness. -/
theorem find_nearby_spec_witness :
    hubM ∈ [hubM]
    ∧ distLat (0, 0) (hubM.latitude, hubM.longitude) ≤ 50
    ∧ ∃ nh ∈ find_nearby_hubs distLat (0, 0) [hubM] 50,
        nh.hub = hubM ∧
        nh.distance_km = pyRound 2 (distLat (0, 0) (hubM.latitude, hubM.longitude)) :=
  ⟨List.mem_cons_self _ _,
   by show (7:ℚ) ≤ 50; norm_num,
   (find_nearby_spec distLat (0, 0) [hubM] 50).2.2.1 hubM (List.mem_cons_self _ _)
     (by show (7:ℚ) ≤ 50; norm_num)⟩

/-- C9: neither engine entry point alters the hub records: every output row
carries a hub that is literally an element of the input list, every field
unchanged, with the derived fields held only in the fresh output wrapper. -/
theorem engine_preserves_hubs (dist : Coord → Coord → ℚ) (loc : Coord)
    (req : List (String × ℤ)) (hubs : List Hub) (max_distance_km : ℚ) :
    (∀ nh ∈ find_nearby_hubs dist loc hubs max_distance_km, nh.hub ∈ hubs)
    ∧ (∀ sh, find_best_hub_for_request dist loc req hubs = some (some sh) →
        sh.hub ∈ hubs) := by
  constructor
  · intro nh hnh
    rw [find_nearby_unfold, List.mem_insertionSort] at hnh
    obtain ⟨hub, hhub, hfe⟩ := List.mem_filterMap.mp hnh
    rw [nearbyEntry_eq] at hfe
    by_cases hd : dist loc (hub.latitude, hub.longitude) ≤ max_distance_km
    · rw [if_pos hd] at hfe
      obtain rfl := Option.some_inj.mp hfe
      exact hhub
    · rw [if_neg hd] at hfe
      cases hfe
  · intro sh h
    cases hs : scoreHubs dist loc req hubs with
    | none =>
      rw [find_best_hub_for_request, hs] at h
      cases h
    | some scored =>
      rw [find_best_hub_for_request, hs, Option.map_some'] at h
      have hhead : (scored.insertionSort scoredGE).head? = some sh :=
        Option.some_inj.mp h
      have hmem : sh ∈ scored :=
        (List.mem_insertionSort scoredGE).mp (mem_of_head?_some hhead)
      exact (scoreHubs_mem dist loc req hubs scored hs sh hmem).1

/-- C9 witness. -/
theorem engine_preserves_hubs_witness :
    find_best_hub_for_request distZero (0, 0) [("tents", 5)] [hubT] =
      some (some { hub := hubT, distance_km := 0, match_score := 100,
                   combined_score := 100 })
    ∧ ({ hub := hubT, distance_km := 0, match_score := 100,
         combined_score := 100 } : ScoredHub).hub ∈ [hubT] :=
  ⟨find_best_single hubT [("tents", 5)] (cms_self "tents" 5 (by norm_num)),
   (engine_preserves_hubs distZero (0, 0) [("tents", 5)] [hubT] 50).2
     { hub := hubT, distance_km := 0, match_score := 100, combined_score := 100 }
     (find_best_single hubT [("tents", 5)] (cms_self "tents" 5 (by norm_num)))⟩

/-- C7: `classify_disaster_type` scans the fixed category order and returns
the first label one of whose keywords occurs in the lower-cased text,
`"unknown"` when none does; a text with keywords of two categories gets the
earlier-checked label. -/
theorem classify_type_first_match :
    disaster_keywords.map Prod.fst =
      ["earthquake", "flood", "hurricane", "wildfire", "tornado",
       "tsunami", "landslide", "volcano", "drought", "blizzard"]
    ∧ (∀ (t : String) (pre : List (String × List String))
        (p : String × List String) (post : List (String × List String)),
        disaster_keywords = pre ++ p :: post →
        (∀ q ∈ pre, ∀ w ∈ q.2, ¬ strIn w (strLower t)) →
        (∃ w ∈ p.2, strIn w (strLower t)) →
        classify_disaster_type t = p.1)
    ∧ (∀ t : String,
        (∀ p ∈ disaster_keywords, ∀ w ∈ p.2, ¬ strIn w (strLower t)) →
        classify_disaster_type t = "unknown") := by
  refine ⟨rfl, ?_, ?_⟩
  · intro t pre p post htab hpre hp
    rw [classify_unfold, htab,
      find?_append_first _ p pre post
        (fun q hq => (kwMatch_eq_false_iff _ _).mpr (hpre q hq))
        ((kwMatch_iff _ _).mpr hp)]
  · intro t h
    rw [classify_unfold, List.find?_eq_none.mpr
      (fun q hq => by
        rw [Bool.not_eq_true]
        exact (kwMatch_eq_false_iff _ _).mpr (h q hq))]

/-- C7 witness: a text with both a flood and an earthquake keyword is
classified by the earlier-checked earthquake entry. -/
theorem classify_type_first_match_witness :
    (∃ w ∈ (("earthquake", ["earthquake", "tremor", "seismic", "quake"]) :
        String × List String).2, strIn w (strLower "Flood after EARTHQUAKE"))
    ∧ classify_disaster_type "Flood after EARTHQUAKE" = "earthquake" :=
  ⟨by decide,
   classify_type_first_match.2.1 "Flood after EARTHQUAKE" []
     ("earthquake", ["earthquake", "tremor", "seismic", "quake"])
     [("flood", ["flood", "flooding", "inundation", "deluge"]),
      ("hurricane", ["hurricane", "cyclone", "typhoon", "storm"]),
      ("wildfire", ["wildfire", "fire", "blaze", "burning"]),
      ("tornado", ["tornado", "twister"]),
      ("tsunami", ["tsunami", "tidal wave"]),
      ("landslide", ["landslide", "mudslide"]),
      ("volcano", ["volcano", "volcanic", "eruption"]),
      ("drought", ["drought", "dry", "water shortage"]),
      ("blizzard", ["blizzard", "snowstorm", "winter storm"])]
     rfl (by simp) (by decide)⟩

/-- C8: `assess_severity` returns the highest matching tier in the order
critical > high > medium, `"low"` when nothing matches, and is total. -/
theorem assess_severity_tiers :
    (∀ t : String,
      ((∃ w ∈ critical_keywords, strIn w (strLower t)) →
        assess_severity t = "critical")
      ∧ ((¬ ∃ w ∈ critical_keywords, strIn w (strLower t)) →
          (∃ w ∈ high_keywords, strIn w (strLower t)) →
          assess_severity t = "high")
      ∧ ((¬ ∃ w ∈ critical_keywords, strIn w (strLower t)) →
          (¬ ∃ w ∈ high_keywords, strIn w (strLower t)) →
          (∃ w ∈ medium_keywords, strIn w (strLower t)) →
          assess_severity t = "medium")
      ∧ ((¬ ∃ w ∈ critical_keywords, strIn w (strLower t)) →
          (¬ ∃ w ∈ high_keywords, strIn w (strLower t)) →
          (¬ ∃ w ∈ medium_keywords, strIn w (strLower t)) →
          assess_severity t = "low"))
    ∧ (∀ t : String, assess_severity t = "critical" ∨ assess_severity t = "high"
        ∨ assess_severity t = "medium" ∨ assess_severity t = "low")
    ∧ assess_severity "" = "low" := by
  refine ⟨?_, ?_, by decide⟩
  · intro t
    refine ⟨?_, ?_, ?_, ?_⟩
    · intro h
      rw [assess_unfold, if_pos ((kwMatch_iff _ _).mpr h)]
    · intro hc h
      rw [assess_unfold, if_neg (fun hb => hc ((kwMatch_iff _ _).mp hb)),
        if_pos ((kwMatch_iff _ _).mpr h)]
    · intro hc hh h
      rw [assess_unfold, if_neg (fun hb => hc ((kwMatch_iff _ _).mp hb)),
        if_neg (fun hb => hh ((kwMatch_iff _ _).mp hb)),
        if_pos ((kwMatch_iff _ _).mpr h)]
    · intro hc hh hm
      rw [assess_unfold, if_neg (fun hb => hc ((kwMatch_iff _ _).mp hb)),
        if_neg (fun hb => hh ((kwMatch_iff _ _).mp hb)),
        if_neg (fun hb => hm ((kwMatch_iff _ _).mp hb))]
  · intro t
    rw [assess_unfold]
    by_cases h1 : kwMatch (strLower t) critical_keywords = true
    · rw [if_pos h1]
      exact Or.inl rfl
    rw [if_neg h1]
    by_cases h2 : kwMatch (strLower t) high_keywords = true
    · rw [if_pos h2]
      exact Or.inr (Or.inl rfl)
    rw [if_neg h2]
    by_cases h3 : kwMatch (strLower t) medium_keywords = true
    · rw [if_pos h3]
      exact Or.inr (Or.inr (Or.inl rfl))
    rw [if_neg h3]
    exact Or.inr (Or.inr (Or.inr rfl))

/-- C8 witness: a text with a critical and a medium keyword is critical. -/
theorem assess_severity_tiers_witness :
    (∃ w ∈ critical_keywords, strIn w (strLower "Severe storm with moderate alerts"))
    ∧ assess_severity "Severe storm with moderate alerts" = "critical" :=
  ⟨by decide,
   (assess_severity_tiers.1 "Severe storm with moderate alerts").1 (by decide)⟩

/-- C10: blizzard is reachable only through the literal word blizzard — the
other blizzard keywords contain storm, a hurricane keyword checked earlier,
so such texts are classified hurricane whenever no still-earlier category
matches. -/
theorem classify_blizzard_shadowed :
    (∀ t : String, classify_disaster_type t = "blizzard" →
      strIn "blizzard" (strLower t))
    ∧ (∀ t : String,
        strIn "snowstorm" (strLower t) ∨ strIn "winter storm" (strLower t) →
        strIn "storm" (strLower t))
    ∧ (("hurricane", ["hurricane", "cyclone", "typhoon", "storm"]) ∈
        disaster_keywords
      ∧ "storm" ∈ (["hurricane", "cyclone", "typhoon", "storm"] : List String))
    ∧ (∀ t : String, strIn "storm" (strLower t) →
        (∀ w ∈ (["earthquake", "tremor", "seismic", "quake"] : List String),
          ¬ strIn w (strLower t)) →
        (∀ w ∈ (["flood", "flooding", "inundation", "deluge"] : List String),
          ¬ strIn w (strLower t)) →
        classify_disaster_type t = "hurricane") := by
  refine ⟨classify_blizzard_main, ?_, ⟨by decide, by decide⟩, ?_⟩
  · intro t h
    rcases h with h | h
    · exact List.IsInfix.trans storm_infix_snowstorm h
    · exact List.IsInfix.trans storm_infix_winterstorm h
  · intro t hst h1 h2
    rw [classify_unfold, disaster_keywords_cons]
    rw [show (("earthquake", ["earthquake", "tremor", "seismic", "quake"]) ::
        ("flood", ["flood", "flooding", "inundation", "deluge"]) ::
        ("hurricane", ["hurricane", "cyclone", "typhoon", "storm"]) ::
        ("wildfire", ["wildfire", "fire", "blaze", "burning"]) ::
        ("tornado", ["tornado", "twister"]) ::
        ("tsunami", ["tsunami", "tidal wave"]) ::
        ("landslide", ["landslide", "mudslide"]) ::
        ("volcano", ["volcano", "volcanic", "eruption"]) ::
        ("drought", ["drought", "dry", "water shortage"]) ::
        ("blizzard", ["blizzard", "snowstorm", "winter storm"]) ::
        ([] : List (String × List String))) =
      [("earthquake", ["earthquake", "tremor", "seismic", "quake"]),
       ("flood", ["flood", "flooding", "inundation", "deluge"])] ++
        ("hurricane", ["hurricane", "cyclone", "typhoon", "storm"]) ::
        [("wildfire", ["wildfire", "fire", "blaze", "burning"]),
         ("tornado", ["tornado", "twister"]),
         ("tsunami", ["tsunami", "tidal wave"]),
         ("landslide", ["landslide", "mudslide"]),
         ("volcano", ["volcano", "volcanic", "eruption"]),
         ("drought", ["drought", "dry", "water shortage"]),
         ("blizzard", ["blizzard", "snowstorm", "winter storm"])] from rfl]
    have hpre : ∀ q ∈ [(("earthquake" : String),
          ["earthquake", "tremor", "seismic", "quake"]),
        ("flood", ["flood", "flooding", "inundation", "deluge"])],
        kwMatch (strLower t) q.2 = false := by
      intro q hq
      rcases (by simpa using hq :
          q = ("earthquake", ["earthquake", "tremor", "seismic", "quake"]) ∨
          q = ("flood", ["flood", "flooding", "inundation", "deluge"]))
        with rfl | rfl
      · exact (kwMatch_eq_false_iff _ _).mpr h1
      · exact (kwMatch_eq_false_iff _ _).mpr h2
    rw [find?_append_first (fun q => kwMatch (strLower t) q.2)
      ("hurricane", ["hurricane", "cyclone", "typhoon", "storm"])
      [("earthquake", ["earthquake", "tremor", "seismic", "quake"]),
       ("flood", ["flood", "flooding", "inundation", "deluge"])]
      [("wildfire", ["wildfire", "fire", "blaze", "burning"]),
       ("tornado", ["tornado", "twister"]),
       ("tsunami", ["tsunami", "tidal wave"]),
       ("landslide", ["landslide", "mudslide"]),
       ("volcano", ["volcano", "volcanic", "eruption"]),
       ("drought", ["drought", "dry", "water shortage"]),
       ("blizzard", ["blizzard", "snowstorm", "winter storm"])]
      hpre ((kwMatch_iff _ _).mpr ⟨"storm", by simp, hst⟩)]

/-- C10 witness. -/
theorem classify_blizzard_shadowed_witness :
    classify_disaster_type "Blizzard conditions tonight" = "blizzard"
    ∧ strIn "blizzard" (strLower "Blizzard conditions tonight") :=
  ⟨by decide,
   classify_blizzard_shadowed.1 "Blizzard conditions tonight" (by decide)⟩

end DisasterRelief
